import Mathlib

set_option maxRecDepth 65536

/-!
# Verification of the Flask calculator (`src/app.py`)

Shallow embedding of the calculator web application.  Python floats are
modelled as exact extended rationals (`PyFloat`): a finite rational, the two
infinities, or NaN.  This captures the control flow and the special-value
behaviour the application relies on (division-by-zero check, `int()`
conversion failures on NaN/infinity, integer-vs-rounded result rendering);
binary floating-point rounding error is outside the model.  JSON scalars are
`JValue`; Python exceptions are `PyErr`; an HTTP response is its JSON object
(an association list) plus a status code.
-/

namespace CalcApp

/-- Model of a Python float: exact rational for finite values, plus the IEEE
special values the application can produce (`inf`, `-inf`, `nan`). -/
inductive PyFloat where
  | finite (q : ℚ)
  | inf
  | neginf
  | nan
deriving DecidableEq

/-- The Python exception kinds the application can raise: `ValueError`
(raised explicitly by `Calculator` and by `float()`/`int()` on bad values),
`TypeError` (from `float()` on a non-numeric, non-string value) and
`OverflowError` (from `int()` on an infinity).  Each carries `str(e)`. -/
inductive PyErr where
  | valueError (msg : String)
  | typeError (msg : String)
  | overflowError (msg : String)
deriving DecidableEq

/-- A JSON scalar as it appears in a request body or a `jsonify` response. -/
inductive JValue where
  | jnull
  | jbool (b : Bool)
  | jint (n : ℤ)
  | jfloat (x : PyFloat)
  | jstr (s : String)
deriving DecidableEq

end CalcApp

deriving instance DecidableEq for Except

namespace CalcApp

/-- Rational addition written on numerators/denominators via `Rat.divInt`,
so that concrete values kernel-reduce; `qAdd_eq` below shows it is `+`. -/
def qAdd (a b : ℚ) : ℚ := Rat.divInt (a.num * b.den + b.num * a.den) ((a.den : ℤ) * (b.den : ℤ))

/-- Rational multiplication via `Rat.divInt`; `qMul_eq` shows it is `*`. -/
def qMul (a b : ℚ) : ℚ := Rat.divInt (a.num * b.num) ((a.den : ℤ) * (b.den : ℤ))

/-- Rational division via `Rat.divInt`; `qDiv_eq` shows it is `/`. -/
def qDiv (a b : ℚ) : ℚ := Rat.divInt (a.num * b.den) ((a.den : ℤ) * b.num)

/-- Numeric value of a list of decimal digit characters. -/
def digitsVal (ds : List Char) : ℕ :=
  ds.foldl (fun a c => 10 * a + (c.toNat - 48)) 0

/-- Consume an optional leading sign; returns (is-negative, rest). -/
def splitSign : List Char → Bool × List Char
  | '+' :: r => (false, r)
  | '-' :: r => (true, r)
  | r => (false, r)

/-- `10 ^ n` as a rational, kept kernel-computable. -/
def pow10 (n : ℕ) : ℚ := ((10 ^ n : ℕ) : ℚ)

/-- Exact value of integer digits `ip`, fraction digits `fp` and decimal
exponent `e`: `digits(ip ++ fp) * 10 ^ (e - |fp|)`. -/
def mantissaQ (ip fp : List Char) (e : ℤ) : ℚ :=
  let k : ℤ := e - fp.length
  if 0 ≤ k then qMul ((digitsVal (ip ++ fp) : ℕ) : ℚ) (pow10 k.toNat)
  else qDiv ((digitsVal (ip ++ fp) : ℕ) : ℚ) (pow10 (-k).toNat)

/-- Parse the exponent part after `e`/`E`: optional sign then digits. -/
def parseExpChars (t : List Char) : Option ℤ :=
  let (neg, t1) := splitSign t
  let p := t1.span Char.isDigit
  if p.1.isEmpty then none
  else if p.2.isEmpty then
    some (if neg then -(digitsVal p.1 : ℤ) else (digitsVal p.1 : ℤ))
  else none

/-- Parse an unsigned decimal literal `digits [. digits] [(e|E) exp]`;
at least one digit must appear in the mantissa. -/
def parseDecimalChars (cs : List Char) : Option ℚ :=
  let p1 := cs.span Char.isDigit
  let p2 : List Char × List Char :=
    match p1.2 with
    | '.' :: t => t.span Char.isDigit
    | _ => ([], p1.2)
  if p1.1.isEmpty && p2.1.isEmpty then none
  else
    match p2.2 with
    | [] => some (mantissaQ p1.1 p2.1 0)
    | 'e' :: t =>
      match parseExpChars t with
      | some e => some (mantissaQ p1.1 p2.1 e)
      | none => none
    | 'E' :: t =>
      match parseExpChars t with
      | some e => some (mantissaQ p1.1 p2.1 e)
      | none => none
    | _ => none

/-- Model of Python's builtin `float(str)` string grammar: surrounding
whitespace stripped, an optional sign, then `inf`/`infinity`/`nan`
(case-insensitive) or a decimal literal with optional fraction and exponent.
(Digit-group underscores and overflow of huge literals to infinity are not
modelled; no claim depends on them.) -/
def parseFloatString (s : String) : Option PyFloat :=
  let t1 := s.data.dropWhile Char.isWhitespace
  let cs := (t1.reverse.dropWhile Char.isWhitespace).reverse
  let sgn := splitSign cs
  let low := sgn.2.map Char.toLower
  if low = "inf".data ∨ low = "infinity".data then
    some (if sgn.1 then .neginf else .inf)
  else if low = "nan".data then
    some .nan
  else
    match parseDecimalChars sgn.2 with
    | some q => some (.finite (if sgn.1 then -q else q))
    | none => none

/-- Model of Python's builtin `float()` applied to a JSON scalar: numbers and
booleans coerce, strings are parsed (`ValueError` on failure), `null` is a
`TypeError`.  Exact CPython exception messages are kept where a claim can
observe them. -/
def pyFloat : JValue → Except PyErr PyFloat
  | .jnull =>
    .error (.typeError "float() argument must be a string or a real number, not 'NoneType'")
  | .jbool b => .ok (.finite (if b then 1 else 0))
  | .jint n => .ok (.finite (Rat.ofInt n))
  | .jfloat x => .ok x
  | .jstr s =>
    match parseFloatString s with
    | some x => .ok x
    | none => .error (.valueError ("could not convert string to float: '" ++ s ++ "'"))

/-- Python `==` on floats: NaN compares unequal to everything. -/
def PyFloat.pyEq : PyFloat → PyFloat → Bool
  | .nan, _ => false
  | _, .nan => false
  | .finite a, .finite b => a = b
  | .inf, .inf => true
  | .neginf, .neginf => true
  | _, _ => false

/-- IEEE addition on the model. -/
def PyFloat.add : PyFloat → PyFloat → PyFloat
  | .nan, _ => .nan
  | _, .nan => .nan
  | .finite a, .finite b => .finite (qAdd a b)
  | .finite _, .inf => .inf
  | .finite _, .neginf => .neginf
  | .inf, .finite _ => .inf
  | .inf, .inf => .inf
  | .inf, .neginf => .nan
  | .neginf, .finite _ => .neginf
  | .neginf, .inf => .nan
  | .neginf, .neginf => .neginf

/-- IEEE negation on the model. -/
def PyFloat.neg : PyFloat → PyFloat
  | .finite a => .finite (-a)
  | .inf => .neginf
  | .neginf => .inf
  | .nan => .nan

/-- IEEE subtraction on the model. -/
def PyFloat.sub (a b : PyFloat) : PyFloat := a.add b.neg

/-- IEEE multiplication on the model (`0 * ±inf = nan`). -/
def PyFloat.mul : PyFloat → PyFloat → PyFloat
  | .nan, _ => .nan
  | _, .nan => .nan
  | .finite a, .finite b => .finite (qMul a b)
  | .finite a, .inf => if a < 0 then .neginf else if a = 0 then .nan else .inf
  | .finite a, .neginf => if a < 0 then .inf else if a = 0 then .nan else .neginf
  | .inf, .finite b => if b < 0 then .neginf else if b = 0 then .nan else .inf
  | .neginf, .finite b => if b < 0 then .inf else if b = 0 then .nan else .neginf
  | .inf, .inf => .inf
  | .inf, .neginf => .neginf
  | .neginf, .inf => .neginf
  | .neginf, .neginf => .inf

/-- IEEE division on the model.  The only call site (`Calculator.divide`)
first rules out a zero divisor, so the `finite / finite 0` arm (where Python
would raise `ZeroDivisionError`) is unreachable; `ℚ` yields `0` there. -/
def PyFloat.div : PyFloat → PyFloat → PyFloat
  | .nan, _ => .nan
  | _, .nan => .nan
  | .finite a, .finite b => .finite (qDiv a b)
  | .finite _, .inf => .finite 0
  | .finite _, .neginf => .finite 0
  | .inf, .finite b => if b < 0 then .neginf else .inf
  | .neginf, .finite b => if b < 0 then .inf else .neginf
  | .inf, .inf => .nan
  | .inf, .neginf => .nan
  | .neginf, .inf => .nan
  | .neginf, .neginf => .nan

/-- Best-effort `repr` of a model float, used only inside the
`Invalid operator` message when the operator is itself a float (no claim
observes that text; Python's exact float formatting is not modelled). -/
def floatRepr : PyFloat → String
  | .finite q => if q.den = 1 then toString q.num ++ ".0" else toString q.num ++ "/" ++ toString q.den
  | .inf => "inf"
  | .neginf => "-inf"
  | .nan => "nan"

/-- Python `str()` of a JSON scalar, as interpolated by the f-string in
`Calculator.calculate`'s error message. -/
def pyStr : JValue → String
  | .jnull => "None"
  | .jbool true => "True"
  | .jbool false => "False"
  | .jint n => toString n
  | .jfloat x => floatRepr x
  | .jstr s => s

namespace Calculator

/-- `Calculator.add` (src/app.py lines 21-24): `float(a) + float(b)`. -/
def add (a b : JValue) : Except PyErr PyFloat :=
  match pyFloat a with
  | .error e => .error e
  | .ok fa =>
    match pyFloat b with
    | .error e => .error e
    | .ok fb => .ok (fa.add fb)

/-- `Calculator.subtract` (lines 26-29): `float(a) - float(b)`. -/
def subtract (a b : JValue) : Except PyErr PyFloat :=
  match pyFloat a with
  | .error e => .error e
  | .ok fa =>
    match pyFloat b with
    | .error e => .error e
    | .ok fb => .ok (fa.sub fb)

/-- `Calculator.multiply` (lines 31-34): `float(a) * float(b)`. -/
def multiply (a b : JValue) : Except PyErr PyFloat :=
  match pyFloat a with
  | .error e => .error e
  | .ok fa =>
    match pyFloat b with
    | .error e => .error e
    | .ok fb => .ok (fa.mul fb)

/-- `Calculator.divide` (lines 36-41): raise `ValueError` when
`float(b) == 0`, else `float(a) / float(b)`.  `float(b)` is evaluated
first (in the guard), mirroring the source's evaluation order. -/
def divide (a b : JValue) : Except PyErr PyFloat :=
  match pyFloat b with
  | .error e => .error e
  | .ok fb =>
    if fb.pyEq (.finite 0) then
      .error (.valueError "Division by zero is not allowed")
    else
      match pyFloat a with
      | .error e => .error e
      | .ok fa => .ok (fa.div fb)

/-- `Calculator.calculate` (lines 43-71).  The `operations` dict's literal
keys are `'+'`, `'-'`, `'*'`, `'ร\x97'`, `'/'`, `'รท'` — the last pair are
the exact characters in the source file (U+0E23 U+0097 and U+0E23 U+0E17,
i.e. the UTF-8 bytes of `×`/`÷` decoded as cp874), not `×` (U+00D7) or `÷`
(U+00F7).  An operator outside the dict raises
`ValueError(f"Invalid operator: {operator}")`. -/
def calculate (num1 operator num2 : JValue) : Except PyErr PyFloat :=
  match operator with
  | .jstr "+" => add num1 num2
  | .jstr "-" => subtract num1 num2
  | .jstr "*" => multiply num1 num2
  | .jstr "ร\x97" => multiply num1 num2
  | .jstr "/" => divide num1 num2
  | .jstr "รท" => divide num1 num2
  | op => .error (.valueError ("Invalid operator: " ++ pyStr op))

end Calculator

/-- Membership of a request's `operator` value in the `operations` dict of
`Calculator.calculate` (its keys as they appear byte-for-byte in the
source). -/
def opInMapping : JValue → Bool
  | .jstr "+" => true
  | .jstr "-" => true
  | .jstr "*" => true
  | .jstr "ร\x97" => true
  | .jstr "/" => true
  | .jstr "รท" => true
  | _ => false

/-- Truncation toward zero, the semantics of Python's `int()` on a finite
float (`int(3.7) = 3`, `int(-3.7) = -3`). -/
def ratTrunc (q : ℚ) : ℤ := q.num.tdiv q.den

/-- Floor of a rational (via floor division of numerator by denominator). -/
def ratFloor (q : ℚ) : ℤ := q.num.fdiv q.den

/-- Round to the nearest integer, ties to even — the rounding rule of
Python's builtin `round`. -/
def roundHalfEven (x : ℚ) : ℤ :=
  let f := ratFloor x
  let r := qAdd x (Rat.ofInt (-f))
  if r < mkRat 1 2 then f
  else if mkRat 1 2 < r then f + 1
  else if f % 2 = 0 then f else f + 1

/-- Model of Python `round(q, 10)` on a finite value: round to the nearest
multiple of `10 ^ (-10)`, ties to even. -/
def roundQ10 (q : ℚ) : ℚ := qDiv (Rat.ofInt (roundHalfEven (qMul q (pow10 10)))) (pow10 10)

/-- Model of Python `round(x, 10)`: NaN and the infinities pass through. -/
def PyFloat.round10 : PyFloat → PyFloat
  | .finite q => .finite (roundQ10 q)
  | .inf => .inf
  | .neginf => .neginf
  | .nan => .nan

/-- Model of Python's builtin `int()` on a float: truncates a finite value
toward zero, raises `ValueError` on NaN and `OverflowError` on an infinity
(exact CPython messages). -/
def PyFloat.toInt : PyFloat → Except PyErr ℤ
  | .finite q => .ok (ratTrunc q)
  | .inf => .error (.overflowError "cannot convert float infinity to integer")
  | .neginf => .error (.overflowError "cannot convert float infinity to integer")
  | .nan => .error (.valueError "cannot convert float NaN to integer")

/-- The result post-processing of `api_calculate` (lines 132-136):
`int(result)` is computed first (and may raise); if `result == int(result)`
the integer is returned, otherwise `round(result, 10)`. -/
def formatResult (result : PyFloat) : Except PyErr JValue :=
  match result.toInt with
  | .error e => .error e
  | .ok n =>
    if result.pyEq (.finite (Rat.ofInt n)) then .ok (.jint n)
    else .ok (.jfloat result.round10)

/-- An HTTP response: the `jsonify`-ed object and the status code. -/
structure HttpResp where
  body : List (String × JValue)
  status : ℕ
deriving DecidableEq

/-- The error-response shape `jsonify({'success': False, 'error': msg})`
with an explicit status, used at every failure return of `api_calculate`. -/
def errResp (msg : String) (code : ℕ) : HttpResp :=
  ⟨[("success", .jbool false), ("error", .jstr msg)], code⟩

/-- `POST /api/calculate` (src/app.py lines 78-157).  The input is the
parsed JSON body: `none` when `request.get_json()` yields no object, `some`
an association list of its fields otherwise.  `if not data` treats `None`
AND the empty object as absent (Python falsiness).  Required fields are
checked in the order `num1`, `operator`, `num2`; then both operands must
pass `float()`; then `Calculator.calculate` runs and its result is
formatted.  A `ValueError` from calculation or formatting becomes a 400
with `str(e)`; any other exception becomes a 500 with a generic message. -/
def api_calculate (data : Option (List (String × JValue))) : HttpResp :=
  match data with
  | none => errResp "No data provided" 400
  | some body =>
    if body.isEmpty then errResp "No data provided" 400
    else
      match body.lookup "num1", body.lookup "operator", body.lookup "num2" with
      | none, _, _ => errResp "Missing required field: num1" 400
      | some _, none, _ => errResp "Missing required field: operator" 400
      | some _, some _, none => errResp "Missing required field: num2" 400
      | some num1, some operator, some num2 =>
        match pyFloat num1 with
        | .error _ => errResp "Invalid number format" 400
        | .ok _ =>
          match pyFloat num2 with
          | .error _ => errResp "Invalid number format" 400
          | .ok _ =>
            match Calculator.calculate num1 operator num2 with
            | .error (.valueError msg) => errResp msg 400
            | .error _ => errResp "An unexpected error occurred" 500
            | .ok result =>
              match formatResult result with
              | .error (.valueError msg) => errResp msg 400
              | .error _ => errResp "An unexpected error occurred" 500
              | .ok r => ⟨[("success", .jbool true), ("result", r)], 200⟩

/-- `GET /api/health` (lines 159-165): a constant `jsonify` response,
status 200 (Flask's default). -/
def health_check : HttpResp :=
  ⟨[("status", .jstr "healthy"), ("message", .jstr "Calculator API is running")], 200⟩

/-- The InvalidOperator failure condition: the exact `ValueError` that
`Calculator.calculate` raises for an operator absent from its dict,
`ValueError(f"Invalid operator: {operator}")`. -/
def IsInvalidOperatorFailure (op : JValue) (r : Except PyErr PyFloat) : Prop :=
  r = .error (.valueError ("Invalid operator: " ++ pyStr op))

/-! ## Bridge lemmas

The kernel-computable rational operations used in the embedding coincide
with Mathlib's field operations on `ℚ`. -/

theorem qAdd_eq (a b : ℚ) : qAdd a b = a + b := by
  have ha : (a.den : ℚ) ≠ 0 := Nat.cast_ne_zero.mpr a.den_nz
  have hb : (b.den : ℚ) ≠ 0 := Nat.cast_ne_zero.mpr b.den_nz
  rw [qAdd, Rat.divInt_eq_div]
  push_cast
  conv_rhs => rw [← Rat.num_div_den a, ← Rat.num_div_den b]
  field_simp

theorem qMul_eq (a b : ℚ) : qMul a b = a * b := by
  have ha : (a.den : ℚ) ≠ 0 := Nat.cast_ne_zero.mpr a.den_nz
  have hb : (b.den : ℚ) ≠ 0 := Nat.cast_ne_zero.mpr b.den_nz
  rw [qMul, Rat.divInt_eq_div]
  push_cast
  conv_rhs => rw [← Rat.num_div_den a, ← Rat.num_div_den b]
  field_simp

theorem qDiv_eq (a b : ℚ) : qDiv a b = a / b := by
  rcases eq_or_ne b 0 with rfl | hb
  · rw [qDiv, Rat.divInt_eq_div]
    norm_num
  · have ha : (a.den : ℚ) ≠ 0 := Nat.cast_ne_zero.mpr a.den_nz
    have hbn : (b.num : ℚ) ≠ 0 := Int.cast_ne_zero.mpr (Rat.num_ne_zero.mpr hb)
    have hbd : (b.den : ℚ) ≠ 0 := Nat.cast_ne_zero.mpr b.den_nz
    rw [qDiv, Rat.divInt_eq_div]
    push_cast
    conv_rhs => rw [← Rat.num_div_den a, ← Rat.num_div_den b]
    field_simp

theorem pow10_eq (n : ℕ) : pow10 n = (10 : ℚ) ^ n := by
  rw [pow10]
  push_cast
  rfl

/-- On finite values the model's float operations are exact rational
arithmetic. -/
theorem PyFloat.finite_ops (qa qb : ℚ) :
    PyFloat.add (.finite qa) (.finite qb) = .finite (qa + qb) ∧
    PyFloat.sub (.finite qa) (.finite qb) = .finite (qa - qb) ∧
    PyFloat.mul (.finite qa) (.finite qb) = .finite (qa * qb) ∧
    PyFloat.div (.finite qa) (.finite qb) = .finite (qa / qb) := by
  refine ⟨?_, ?_, ?_, ?_⟩
  · rw [PyFloat.add, qAdd_eq]
  · rw [PyFloat.sub, PyFloat.neg, PyFloat.add, qAdd_eq, sub_eq_add_neg]
  · rw [PyFloat.mul, qMul_eq]
  · rw [PyFloat.div, qDiv_eq]

/-- `calculate` dispatches `"+"` to `add`. -/
theorem calculate_plus (a b : JValue) :
    Calculator.calculate a (.jstr "+") b = Calculator.add a b := rfl

/-- `calculate` dispatches `"-"` to `subtract`. -/
theorem calculate_minus (a b : JValue) :
    Calculator.calculate a (.jstr "-") b = Calculator.subtract a b := rfl

/-- `calculate` dispatches `"*"` to `multiply`. -/
theorem calculate_star (a b : JValue) :
    Calculator.calculate a (.jstr "*") b = Calculator.multiply a b := rfl

/-- `calculate` dispatches `"/"` to `divide`. -/
theorem calculate_slash (a b : JValue) :
    Calculator.calculate a (.jstr "/") b = Calculator.divide a b := rfl

/-- `calculate` dispatches the mojibake multiplication key to `multiply`. -/
theorem calculate_mojibake_mul (a b : JValue) :
    Calculator.calculate a (.jstr "ร\x97") b = Calculator.multiply a b := rfl

/-- `calculate` dispatches the mojibake division key to `divide`. -/
theorem calculate_mojibake_div (a b : JValue) :
    Calculator.calculate a (.jstr "รท") b = Calculator.divide a b := rfl

/-- Any operator accepted by the `operations` dict is one of its six
literal keys. -/
theorem opInMapping_cases (op : JValue) (h : opInMapping op = true) :
    op = .jstr "+" ∨ op = .jstr "-" ∨ op = .jstr "*" ∨ op = .jstr "ร\x97" ∨
    op = .jstr "/" ∨ op = .jstr "รท" := by
  unfold opInMapping at h
  split at h
  · exact Or.inl rfl
  · exact Or.inr (Or.inl rfl)
  · exact Or.inr (Or.inr (Or.inl rfl))
  · exact Or.inr (Or.inr (Or.inr (Or.inl rfl)))
  · exact Or.inr (Or.inr (Or.inr (Or.inr (Or.inl rfl))))
  · exact Or.inr (Or.inr (Or.inr (Or.inr (Or.inr rfl))))
  · exact absurd h (by decide)

/-- An operator outside the `operations` dict makes `calculate` raise the
`Invalid operator` ValueError. -/
theorem calculate_not_in_mapping (num1 op num2 : JValue) (h : opInMapping op = false) :
    Calculator.calculate num1 op num2
      = .error (.valueError ("Invalid operator: " ++ pyStr op)) := by
  unfold Calculator.calculate
  split
  · exact absurd h (by decide)
  · exact absurd h (by decide)
  · exact absurd h (by decide)
  · exact absurd h (by decide)
  · exact absurd h (by decide)
  · exact absurd h (by decide)
  · rfl

/-- Response shape exhaustion for `api_calculate`: every response is either
an error response (built by `errResp`) or the success response carrying the
formatted value of a successful calculation. -/
theorem api_calculate_cases (data : Option (List (String × JValue))) :
    (∃ msg code, api_calculate data = errResp msg code) ∨
    (∃ num1 op num2 result r,
      Calculator.calculate num1 op num2 = .ok result ∧
      formatResult result = .ok r ∧
      api_calculate data = ⟨[("success", .jbool true), ("result", r)], 200⟩) := by
  rcases data with _ | body
  · exact Or.inl ⟨"No data provided", 400, rfl⟩
  by_cases hemp : body.isEmpty = true
  · exact Or.inl ⟨"No data provided", 400, by simp [api_calculate, hemp]⟩
  have hemp' : body.isEmpty = false := by
    cases h : body.isEmpty
    · rfl
    · exact absurd h hemp
  rcases h1 : body.lookup "num1" with _ | num1
  · exact Or.inl ⟨"Missing required field: num1", 400,
      by simp [api_calculate, hemp', h1]⟩
  rcases h2 : body.lookup "operator" with _ | op
  · exact Or.inl ⟨"Missing required field: operator", 400,
      by simp [api_calculate, hemp', h1, h2]⟩
  rcases h3 : body.lookup "num2" with _ | num2
  · exact Or.inl ⟨"Missing required field: num2", 400,
      by simp [api_calculate, hemp', h1, h2, h3]⟩
  rcases hf1 : pyFloat num1 with e1 | f1
  · exact Or.inl ⟨"Invalid number format", 400,
      by simp [api_calculate, hemp', h1, h2, h3, hf1]⟩
  rcases hf2 : pyFloat num2 with e2 | f2
  · exact Or.inl ⟨"Invalid number format", 400,
      by simp [api_calculate, hemp', h1, h2, h3, hf1, hf2]⟩
  rcases hcalc : Calculator.calculate num1 op num2 with e | result
  · rcases e with msg | msg | msg
    · exact Or.inl ⟨msg, 400,
        by simp [api_calculate, hemp', h1, h2, h3, hf1, hf2, hcalc]⟩
    · exact Or.inl ⟨"An unexpected error occurred", 500,
        by simp [api_calculate, hemp', h1, h2, h3, hf1, hf2, hcalc]⟩
    · exact Or.inl ⟨"An unexpected error occurred", 500,
        by simp [api_calculate, hemp', h1, h2, h3, hf1, hf2, hcalc]⟩
  rcases hfmt : formatResult result with e | r
  · rcases e with msg | msg | msg
    · exact Or.inl ⟨msg, 400,
        by simp [api_calculate, hemp', h1, h2, h3, hf1, hf2, hcalc, hfmt]⟩
    · exact Or.inl ⟨"An unexpected error occurred", 500,
        by simp [api_calculate, hemp', h1, h2, h3, hf1, hf2, hcalc, hfmt]⟩
    · exact Or.inl ⟨"An unexpected error occurred", 500,
        by simp [api_calculate, hemp', h1, h2, h3, hf1, hf2, hcalc, hfmt]⟩
  · exact Or.inr ⟨num1, op, num2, result, r, hcalc, hfmt,
      by simp [api_calculate, hemp', h1, h2, h3, hf1, hf2, hcalc, hfmt]⟩

/-! ## Claims -/

/-- C1 (code bug evidence): the spec — and the source's own comments
("Alternative multiplication/division symbol") — intend the Unicode
operators `×` (U+00D7) and `÷` (U+00F7) as aliases of `*` and `/`, but the
keys actually present in the `operations` dict are the mojibake strings
`"ร\x97"` (U+0E23 U+0097) and `"รท"` (U+0E23 U+0E17), the UTF-8 bytes of
`×`/`÷` decoded as cp874.  Hence `calculate` rejects the real Unicode
operators with an `Invalid operator` ValueError (so `calculate(a,"×",b)`
does NOT agree with `calculate(a,"*",b)`), while the mojibake strings do
act as multiply/divide aliases. -/
theorem unicode_alias_mojibake :
    Calculator.calculate (.jint 2) (.jstr "×") (.jint 3)
      = .error (.valueError "Invalid operator: ×") ∧
    Calculator.calculate (.jint 2) (.jstr "÷") (.jint 3)
      = .error (.valueError "Invalid operator: ÷") ∧
    Calculator.calculate (.jint 2) (.jstr "*") (.jint 3) = .ok (.finite 6) ∧
    Calculator.calculate (.jint 2) (.jstr "ร\x97") (.jint 3) = .ok (.finite 6) ∧
    Calculator.calculate (.jint 2) (.jstr "รท") (.jint 0)
      = .error (.valueError "Division by zero is not allowed") := by
  refine ⟨by decide, by decide, by decide, by decide, by decide⟩

/-- C8: `GET /api/health` is a constant response: status 200, `status`
field `"healthy"`, and a `message` string. -/
theorem health_always_healthy :
    health_check.status = 200 ∧
    health_check.body.lookup "status" = some (.jstr "healthy") ∧
    ∃ m, health_check.body.lookup "message" = some (.jstr m) :=
  ⟨rfl, rfl, "Calculator API is running", rfl⟩

/-- C10: `float()` accepts `"nan"`, `"inf"` and `"-inf"`, so such operands
pass the numeric validation; the NaN request then fails inside result
normalization with the `int()` conversion `ValueError` (a 400 whose message
is NOT `"Invalid number format"`), and the infinity request fails with an
`OverflowError`, surfacing as the generic 500. -/
theorem nan_inf_operands_pass_validation :
    pyFloat (.jstr "nan") = .ok .nan ∧
    pyFloat (.jstr "inf") = .ok .inf ∧
    pyFloat (.jstr "-inf") = .ok .neginf ∧
    api_calculate (some [("num1", .jstr "nan"), ("operator", .jstr "+"), ("num2", .jstr "1")])
      = errResp "cannot convert float NaN to integer" 400 ∧
    "cannot convert float NaN to integer" ≠ "Invalid number format" ∧
    api_calculate (some [("num1", .jstr "inf"), ("operator", .jstr "+"), ("num2", .jstr "1")])
      = errResp "An unexpected error occurred" 500 := by
  refine ⟨by decide, by decide, by decide, by decide, by decide, by decide⟩

/-- C3: `divide` raises the division-by-zero `ValueError` exactly when the
second operand coerces to zero, and returns the quotient of the coerced
operands otherwise; `calculate(2, "/", 0)` so fails, and the request
handler maps the failure to a 400 response with `success: false`. -/
theorem divide_by_zero_spec :
    (∀ a b fb, pyFloat b = .ok fb → fb.pyEq (.finite 0) = true →
      Calculator.divide a b = .error (.valueError "Division by zero is not allowed")) ∧
    (∀ a b fa fb, pyFloat a = .ok fa → pyFloat b = .ok fb →
      fb.pyEq (.finite 0) = false →
      Calculator.divide a b = .ok (fa.div fb)) ∧
    Calculator.calculate (.jint 2) (.jstr "/") (.jint 0)
      = .error (.valueError "Division by zero is not allowed") ∧
    api_calculate (some [("num1", .jint 2), ("operator", .jstr "/"), ("num2", .jint 0)])
      = errResp "Division by zero is not allowed" 400 := by
  refine ⟨?_, ?_, by decide, by decide⟩
  · intro a b fb hb hz
    simp [Calculator.divide, hb, hz]
  · intro a b fa fb ha hb hz
    simp [Calculator.divide, ha, hb, hz]

/-- Witness for C3 at concrete inputs. -/
theorem divide_by_zero_spec_witness :
    Calculator.divide (.jint 2) (.jint 0)
      = .error (.valueError "Division by zero is not allowed") ∧
    Calculator.divide (.jint 1) (.jint 4) = .ok (PyFloat.div (.finite 1) (.finite 4)) :=
  ⟨divide_by_zero_spec.1 (.jint 2) (.jint 0) (.finite 0) (by decide) (by decide),
   divide_by_zero_spec.2.1 (.jint 1) (.jint 4) (.finite 1) (.finite 4)
     (by decide) (by decide) (by decide)⟩

/-- C9: `calculate(2, "+", 3) = 5`, each finite operation is exact rational
arithmetic on the coerced operands, and `calculate` applies the operation
selected by the operator to the two coerced operands. -/
theorem calculate_arith_ops :
    Calculator.calculate (.jint 2) (.jstr "+") (.jint 3) = .ok (.finite 5) ∧
    (∀ qa qb : ℚ,
      PyFloat.add (.finite qa) (.finite qb) = .finite (qa + qb) ∧
      PyFloat.sub (.finite qa) (.finite qb) = .finite (qa - qb) ∧
      PyFloat.mul (.finite qa) (.finite qb) = .finite (qa * qb) ∧
      PyFloat.div (.finite qa) (.finite qb) = .finite (qa / qb)) ∧
    (∀ a b fa fb, pyFloat a = .ok fa → pyFloat b = .ok fb →
      Calculator.calculate a (.jstr "+") b = .ok (fa.add fb) ∧
      Calculator.calculate a (.jstr "-") b = .ok (fa.sub fb) ∧
      Calculator.calculate a (.jstr "*") b = .ok (fa.mul fb) ∧
      (fb.pyEq (.finite 0) = false →
        Calculator.calculate a (.jstr "/") b = .ok (fa.div fb))) := by
  refine ⟨by decide, PyFloat.finite_ops, ?_⟩
  intro a b fa fb ha hb
  refine ⟨?_, ?_, ?_, ?_⟩
  · rw [calculate_plus]
    simp [Calculator.add, ha, hb]
  · rw [calculate_minus]
    simp [Calculator.subtract, ha, hb]
  · rw [calculate_star]
    simp [Calculator.multiply, ha, hb]
  · intro hz
    rw [calculate_slash]
    simp [Calculator.divide, ha, hb, hz]

/-- Witness for C9 at concrete inputs. -/
theorem calculate_arith_ops_witness :
    Calculator.calculate (.jint 10) (.jstr "-") (.jint 4)
      = .ok (PyFloat.sub (.finite 10) (.finite 4)) :=
  ((calculate_arith_ops.2.2 (.jint 10) (.jint 4) (.finite 10) (.finite 4)
    (by decide) (by decide)).2.1)

/-- C4: for numeric operands, `calculate` fails with the InvalidOperator
condition exactly when the operator is outside the `operations` dict, and
the handler maps the unrecognized operator `"^"` to a 400 response. -/
theorem invalid_operator_iff :
    (∀ num1 op num2 fa fb, pyFloat num1 = .ok fa → pyFloat num2 = .ok fb →
      (IsInvalidOperatorFailure op (Calculator.calculate num1 op num2) ↔
        opInMapping op = false)) ∧
    api_calculate (some [("num1", .jint 2), ("operator", .jstr "^"), ("num2", .jint 3)])
      = errResp "Invalid operator: ^" 400 := by
  refine ⟨?_, by decide⟩
  intro num1 op num2 fa fb ha hb
  constructor
  · intro h
    by_contra hop
    have hop' : opInMapping op = true := by
      cases hmap : opInMapping op
      · exact absurd hmap hop
      · rfl
    rcases opInMapping_cases op hop' with rfl | rfl | rfl | rfl | rfl | rfl
    · rw [IsInvalidOperatorFailure, calculate_plus] at h
      simp [Calculator.add, ha, hb] at h
    · rw [IsInvalidOperatorFailure, calculate_minus] at h
      simp [Calculator.subtract, ha, hb] at h
    · rw [IsInvalidOperatorFailure, calculate_star] at h
      simp [Calculator.multiply, ha, hb] at h
    · rw [IsInvalidOperatorFailure, calculate_mojibake_mul] at h
      simp [Calculator.multiply, ha, hb] at h
    · rw [IsInvalidOperatorFailure, calculate_slash] at h
      by_cases hz : PyFloat.pyEq fb (.finite 0) = true
      · simp [Calculator.divide, ha, hb, hz] at h
        exact absurd h (by decide)
      · simp [Calculator.divide, ha, hb, hz] at h
    · rw [IsInvalidOperatorFailure, calculate_mojibake_div] at h
      by_cases hz : PyFloat.pyEq fb (.finite 0) = true
      · simp [Calculator.divide, ha, hb, hz] at h
        exact absurd h (by decide)
      · simp [Calculator.divide, ha, hb, hz] at h
  · intro hop
    exact calculate_not_in_mapping num1 op num2 hop

/-- Witness for C4 at the unrecognized operator `"^"`. -/
theorem invalid_operator_iff_witness :
    IsInvalidOperatorFailure (.jstr "^")
      (Calculator.calculate (.jint 2) (.jstr "^") (.jint 3)) ↔
      opInMapping (.jstr "^") = false :=
  invalid_operator_iff.1 (.jint 2) (.jstr "^") (.jint 3) (.finite 2) (.finite 3)
    (by decide) (by decide)

/-- C5 counterexample: the empty JSON object is caught by `if not data`
(Python falsiness), so the response's error is `"No data provided"` — a 400
with `success: false`, but NOT a MissingField error naming a field. -/
theorem empty_object_not_missing_field :
    api_calculate (some []) = errResp "No data provided" 400 ∧
    "No data provided" ≠ "Missing required field: num1" ∧
    "No data provided" ≠ "Missing required field: operator" ∧
    "No data provided" ≠ "Missing required field: num2" := by
  refine ⟨by decide, by decide, by decide, by decide⟩

/-- C5 amended: for a NON-empty body with a required field absent, the
response is a 400 with `success: false` whose MissingField error names a
missing field. -/
theorem missing_field_nonempty (body : List (String × JValue))
    (hne : body ≠ [])
    (hmiss : (body.lookup "num1").isNone ∨ (body.lookup "operator").isNone ∨
      (body.lookup "num2").isNone) :
    ∃ f, f ∈ ["num1", "operator", "num2"] ∧ (body.lookup f).isNone ∧
      api_calculate (some body) = errResp ("Missing required field: " ++ f) 400 := by
  have hemp : body.isEmpty = false := List.isEmpty_eq_false.mpr hne
  rcases h1 : body.lookup "num1" with _ | v1
  · refine ⟨"num1", by simp, by simp [h1], ?_⟩
    simp [api_calculate, hemp, h1]
  · rcases h2 : body.lookup "operator" with _ | v2
    · refine ⟨"operator", by simp, by simp [h2], ?_⟩
      simp [api_calculate, hemp, h1, h2]
    · rcases h3 : body.lookup "num2" with _ | v3
      · refine ⟨"num2", by simp, by simp [h3], ?_⟩
        simp [api_calculate, hemp, h1, h2, h3]
      · rcases hmiss with hm | hm | hm
        · rw [h1] at hm
          simp at hm
        · rw [h2] at hm
          simp at hm
        · rw [h3] at hm
          simp at hm

/-- Witness for C5's amended claim at a concrete one-field body. -/
theorem missing_field_nonempty_witness :
    ∃ f, f ∈ ["num1", "operator", "num2"] ∧
      (([(("num1" : String), JValue.jint 1)]).lookup f).isNone ∧
      api_calculate (some [("num1", .jint 1)])
        = errResp ("Missing required field: " ++ f) 400 :=
  missing_field_nonempty [("num1", .jint 1)] (by decide) (Or.inr (Or.inl (by decide)))

/-- C6: when all three fields are present but an operand fails `float()`,
the handler answers 400 `Invalid number format`; the response does not
depend on the operator or on `Calculator.calculate`. -/
theorem invalid_number_rejected (body : List (String × JValue)) (num1 op num2 : JValue)
    (h1 : body.lookup "num1" = some num1) (h2 : body.lookup "operator" = some op)
    (h3 : body.lookup "num2" = some num2)
    (hbad : (∃ e, pyFloat num1 = .error e) ∨ (∃ e, pyFloat num2 = .error e)) :
    api_calculate (some body) = errResp "Invalid number format" 400 := by
  have hne : body ≠ [] := by
    intro h
    rw [h] at h1
    simp at h1
  have hemp : body.isEmpty = false := List.isEmpty_eq_false.mpr hne
  rcases hbad with ⟨e, he⟩ | ⟨e, he⟩
  · simp [api_calculate, hemp, h1, h2, h3, he]
  · rcases hf1 : pyFloat num1 with e1 | f1
    · simp [api_calculate, hemp, h1, h2, h3, hf1]
    · simp [api_calculate, hemp, h1, h2, h3, hf1, he]

/-- Witness for C6 with a non-numeric `num1`. -/
theorem invalid_number_rejected_witness :
    api_calculate (some [("num1", .jstr "abc"), ("operator", .jstr "+"), ("num2", .jint 3)])
      = errResp "Invalid number format" 400 :=
  invalid_number_rejected
    [("num1", .jstr "abc"), ("operator", .jstr "+"), ("num2", .jint 3)]
    (.jstr "abc") (.jstr "+") (.jint 3) (by decide) (by decide) (by decide)
    (Or.inl ⟨.valueError "could not convert string to float: 'abc'", by decide⟩)

/-- C7: every response of `POST /api/calculate` has a boolean `success`
field, a `result` field iff `success` is true, and a string `error` field
iff `success` is false. -/
theorem response_shape_invariant (data : Option (List (String × JValue))) :
    ∃ b : Bool, (api_calculate data).body.lookup "success" = some (.jbool b) ∧
      ((∃ r, (api_calculate data).body.lookup "result" = some r) ↔ b = true) ∧
      ((∃ s, (api_calculate data).body.lookup "error" = some (.jstr s)) ↔ b = false) := by
  rcases api_calculate_cases data with ⟨msg, code, h⟩ |
    ⟨n1, op, n2, result, r, hcalc, hfmt, h⟩ <;> rw [h]
  · refine ⟨false, rfl, ?_, ?_⟩
    · rw [show (errResp msg code).body.lookup "result" = none from rfl]
      simp
    · rw [show (errResp msg code).body.lookup "error" = some (.jstr msg) from rfl]
      simp
  · refine ⟨true, rfl, ?_, ?_⟩
    · rw [show (HttpResp.mk [("success", .jbool true), ("result", r)] 200).body.lookup
        "result" = some r from rfl]
      simp
    · rw [show (HttpResp.mk [("success", .jbool true), ("result", r)] 200).body.lookup
        "error" = none from rfl]
      simp

/-- Witness for C7 at a concrete request. -/
theorem response_shape_invariant_witness :
    ∃ b : Bool, (api_calculate none).body.lookup "success" = some (.jbool b) ∧
      ((∃ r, (api_calculate none).body.lookup "result" = some r) ↔ b = true) ∧
      ((∃ s, (api_calculate none).body.lookup "error" = some (.jstr s)) ↔ b = false) :=
  response_shape_invariant none

/-- C2: a `result` field in a response always carries a post-processed
calculation value; post-processing yields the integer itself when the value
is mathematically an integer, and the value rounded to 10 decimal places
otherwise; `4.0` renders as the integer `4` and `1/3` as its 10-decimal
rounding. -/
theorem api_result_postprocessed :
    (∀ (data : Option (List (String × JValue))) (v : JValue),
      (api_calculate data).body.lookup "result" = some v →
      ∃ x : PyFloat, formatResult x = .ok v) ∧
    (∀ (x : PyFloat) (v : JValue), formatResult x = .ok v →
      (∃ n : ℤ, x = .finite (Rat.ofInt n) ∧ v = .jint n) ∨
      (∃ q : ℚ, x = .finite q ∧ q.den ≠ 1 ∧ v = .jfloat (.finite (roundQ10 q)))) ∧
    formatResult (.finite 4) = .ok (.jint 4) ∧
    formatResult (.finite (mkRat 1 3))
      = .ok (.jfloat (.finite (mkRat 3333333333 10000000000))) := by
  refine ⟨?_, ?_, by decide, by decide⟩
  · intro data v hv
    rcases api_calculate_cases data with ⟨msg, code, h⟩ |
      ⟨n1, op, n2, result, r, hcalc, hfmt, h⟩
    · rw [h] at hv
      rw [show (errResp msg code).body.lookup "result" = none from rfl] at hv
      exact absurd hv (by simp)
    · rw [h] at hv
      rw [show (HttpResp.mk [("success", .jbool true), ("result", r)] 200).body.lookup
        "result" = some r from rfl] at hv
      obtain rfl : r = v := by injection hv
      exact ⟨result, hfmt⟩
  · intro x v h
    rcases x with q | _ | _ | _
    · simp only [formatResult, PyFloat.toInt] at h
      by_cases hq : PyFloat.pyEq (.finite q) (.finite (Rat.ofInt (ratTrunc q))) = true
      · rw [if_pos hq] at h
        simp only [PyFloat.pyEq, decide_eq_true_eq] at hq
        left
        refine ⟨ratTrunc q, ?_, ?_⟩
        · rw [← hq]
        · injection h with h2
          exact h2.symm
      · rw [if_neg hq] at h
        simp only [PyFloat.pyEq, decide_eq_true_eq] at hq
        right
        refine ⟨q, rfl, ?_, ?_⟩
        · intro hden
          apply hq
          have h1 : ratTrunc q = q.num := by
            rw [ratTrunc, hden]
            exact Int.tdiv_one q.num
          rw [h1, Rat.ofInt_eq_cast]
          exact (Rat.coe_int_num_of_den_eq_one hden).symm
        · injection h with h2
          rw [← h2]
          rfl
    · simp [formatResult, PyFloat.toInt] at h
    · simp [formatResult, PyFloat.toInt] at h
    · simp [formatResult, PyFloat.toInt] at h

/-- Witness for C2: the success response for `2 + 3` carries a formatted
result, and the characterization applied to `1/3` yields its 10-decimal
rounding. -/
theorem api_result_postprocessed_witness :
    (∃ x : PyFloat, formatResult x = .ok (.jint 5)) ∧
    ((∃ n : ℤ, PyFloat.finite (mkRat 1 3) = .finite (Rat.ofInt n) ∧
        JValue.jfloat (.finite (mkRat 3333333333 10000000000)) = .jint n) ∨
     (∃ q : ℚ, PyFloat.finite (mkRat 1 3) = .finite q ∧ q.den ≠ 1 ∧
        JValue.jfloat (.finite (mkRat 3333333333 10000000000))
          = .jfloat (.finite (roundQ10 q)))) :=
  ⟨api_result_postprocessed.1
      (some [("num1", .jint 2), ("operator", .jstr "+"), ("num2", .jint 3)])
      (.jint 5) (by decide),
   api_result_postprocessed.2.1 (.finite (mkRat 1 3))
      (.jfloat (.finite (mkRat 3333333333 10000000000))) (by decide)⟩

end CalcApp
